import Mathlib

/-!
Shallow embedding of the watermark core of photoEdit (src/WatermarkApp.py):
date extraction from EXIF metadata, date-format templating (format_date),
placement (get_position), color conversion (hex_to_rgba), watermark
composition (_draw_watermark) and the batch worker (_apply_watermarks_thread).

Python-level conventions used throughout:
* fallible Python code is embedded as `Except PyErr`; an uncaught exception is
  `.error e`;
* machine floats that only undergo `+ - * /` on decimal inputs are embedded as `ℚ`;
* CPython dicts are embedded as insertion-ordered association lists;
* text is embedded as `List Char` internally, `String` at the boundaries.
-/

/-- Python exception classes that the embedded code can raise or catch. -/
inductive PyErr
  | typeError
  | valueError
  | attributeError
  | unboundLocalError
  | oserror
deriving DecidableEq

instance {ε α : Type} [DecidableEq ε] [DecidableEq α] : DecidableEq (Except ε α) := fun a b =>
  match a, b with
  | .error x, .error y => decidable_of_iff (x = y) (by simp)
  | .error _, .ok _ => isFalse (fun h => Except.noConfusion h)
  | .ok _, .error _ => isFalse (fun h => Except.noConfusion h)
  | .ok x, .ok y => decidable_of_iff (x = y) (by simp)

/-! ### Python string primitives -/

/-- ASCII fragment of Python `str.upper()`: ASCII lowercase letters are
uppercased, every other code point is left unchanged.  This is exact on ASCII
and on uncased code points, but NOT on cased non-ASCII letters, which Python
also uppercases (`'é'.upper() == 'É'`, `'ß'.upper() == 'SS'`); the theorems
below therefore invoke it only on ASCII template text. -/
def pyUpperChar (c : Char) : Char :=
  if 'a' ≤ c ∧ c ≤ 'z' then Char.ofNat (c.toNat - 32) else c

/-- The ASCII fragment of Python `str.upper()` over the character list of a
string (see `pyUpperChar` for the model boundary). -/
def pyUpper (l : List Char) : List Char := l.map pyUpperChar

/-- Fuelled worker for Python `str.replace`: scans left to right, replaces each
non-overlapping occurrence of `p` by `v` and does not rescan the replacement
text.  One unit of fuel is spent per consumed character, so `l.length` fuel is
always enough. -/
def replaceFuel (p v : List Char) : ℕ → List Char → List Char
  | 0, l => l
  | _ + 1, [] => []
  | n + 1, c :: rest =>
    if p ≠ [] ∧ List.isPrefixOf p (c :: rest) then
      v ++ replaceFuel p v n (List.drop (p.length - 1) rest)
    else
      c :: replaceFuel p v n rest

/-- Python `s.replace(p, v)` for a nonempty pattern `p` (the app never calls
`replace` with an empty pattern). -/
def pyReplace (p v l : List Char) : List Char := replaceFuel p v l.length l

/-- Python `s.split(" ")[0]`: the characters before the first space. -/
def takeBeforeSpace : List Char → List Char
  | [] => []
  | c :: r => if c = ' ' then [] else c :: takeBeforeSpace r

/-! ### `datetime.strptime(date_str, "%Y-%m-%d")`

CPython's `_strptime` compiles the format to the regex
`\d\d\d\d\-(1[0-2]|0[1-9]|[1-9])\-(3[01]|[12]\d|0[1-9]|[1-9])` (alternatives
tried in that order, with backtracking), then raises `ValueError` unless the
match spans the whole input, and finally validates the day against the month
via the `datetime` constructor. -/

/-- Numeric value of a decimal digit character. -/
def digitVal (c : Char) : ℕ := c.toNat - 48

/-- Month alternatives of the `%m` regex `(1[0-2]|0[1-9]|[1-9])` in priority
order, each with the remaining input. -/
def monthCandidates (l : List Char) : List (ℕ × List Char) :=
  (match l with
   | '1' :: c :: r => if '0' ≤ c ∧ c ≤ '2' then [(10 + digitVal c, r)] else []
   | _ => []) ++
  (match l with
   | '0' :: c :: r => if '1' ≤ c ∧ c ≤ '9' then [(digitVal c, r)] else []
   | _ => []) ++
  (match l with
   | c :: r => if '1' ≤ c ∧ c ≤ '9' then [(digitVal c, r)] else []
   | [] => [])

/-- Day alternatives of the `%d` regex `(3[01]|[12]\d|0[1-9]|[1-9])` in
priority order, each with the remaining input. -/
def dayCandidates (l : List Char) : List (ℕ × List Char) :=
  (match l with
   | '3' :: c :: r => if '0' ≤ c ∧ c ≤ '1' then [(30 + digitVal c, r)] else []
   | _ => []) ++
  (match l with
   | c1 :: c2 :: r =>
     if ('1' ≤ c1 ∧ c1 ≤ '2') ∧ c2.isDigit then [(10 * digitVal c1 + digitVal c2, r)] else []
   | _ => []) ++
  (match l with
   | '0' :: c :: r => if '1' ≤ c ∧ c ≤ '9' then [(digitVal c, r)] else []
   | _ => []) ++
  (match l with
   | c :: r => if '1' ≤ c ∧ c ≤ '9' then [(digitVal c, r)] else []
   | [] => [])

/-- First candidate on which the continuation succeeds (regex backtracking
over an alternation). -/
def firstSome {α β : Type} (f : α → Option β) : List α → Option β
  | [] => none
  | a :: rest =>
    match f a with
    | some b => some b
    | none => firstSome f rest

/-- Gregorian leap-year rule, as used by `datetime`. -/
def isLeapYear (y : ℕ) : Bool := decide (y % 4 = 0 ∧ (y % 100 ≠ 0 ∨ y % 400 = 0))

/-- Number of days of month `m` in year `y`. -/
def daysInMonth (y m : ℕ) : ℕ :=
  if m = 2 then (if isLeapYear y then 29 else 28)
  else if m = 4 ∨ m = 6 ∨ m = 9 ∨ m = 11 then 30
  else 31

/-- `datetime.strptime(s, "%Y-%m-%d")`, returning `some (year, month, day)` or
`none` where CPython raises `ValueError`. -/
def strptimeYMD (l : List Char) : Option (ℕ × ℕ × ℕ) :=
  match l with
  | y1 :: y2 :: y3 :: y4 :: '-' :: rest =>
    if y1.isDigit ∧ y2.isDigit ∧ y3.isDigit ∧ y4.isDigit then
      let y := 1000 * digitVal y1 + 100 * digitVal y2 + 10 * digitVal y3 + digitVal y4
      match firstSome (fun mc =>
          match mc.2 with
          | '-' :: r3 =>
            match (dayCandidates r3).head? with
            | some dc => some (mc.1, dc.1, dc.2)
            | none => none
          | _ => none) (monthCandidates rest) with
      | some (m, d, leftover) =>
        if leftover = [] ∧ 1 ≤ y ∧ d ≤ daysInMonth y m then some (y, m, d) else none
      | none => none
    else none
  | _ => none

/-! ### `strftime` on the directives format_date can emit

The app runs `date_obj.strftime(output_fmt)` where `output_fmt` only ever
contains directives produced by the replacement table (`%Y %y %m %d %A %a`,
`%-m %-d` on POSIX, `%#m %#d` on Windows) plus leftover literal characters.
Weekday names use the C locale.  Unknown directives are passed through
verbatim (glibc behaviour), and `%Y` is rendered without padding (glibc; all
parsed years have four digits anyway). -/

/-- Sakamoto's table for the day-of-week computation. -/
def sakamotoT : List ℕ := [0, 3, 2, 5, 0, 3, 5, 1, 4, 6, 2, 4]

/-- Day of week of a Gregorian date, `0 = Sunday`. -/
def weekdayIndex (y m d : ℕ) : ℕ :=
  let yy := if m < 3 then y - 1 else y
  (yy + yy / 4 - yy / 100 + yy / 400 + sakamotoT.getD (m - 1) 0 + d) % 7

/-- C-locale full weekday names, indexed by `weekdayIndex`. -/
def weekdayNamesFull : List String :=
  ["Sunday", "Monday", "Tuesday", "Wednesday", "Thursday", "Friday", "Saturday"]

/-- C-locale abbreviated weekday names, indexed by `weekdayIndex`. -/
def weekdayNamesAbbr : List String := ["Sun", "Mon", "Tue", "Wed", "Thu", "Fri", "Sat"]

/-- Decimal digits of a natural number. -/
def natChars (n : ℕ) : List Char := (Nat.repr n).data

/-- Zero-padded two-digit rendering (`%y %m %d`). -/
def pad2 (n : ℕ) : List Char := if n < 10 then '0' :: natChars n else natChars n

/-- `strftime` over a character list for the directive set reachable from
format_date. -/
def strftimeAux (y m d : ℕ) : List Char → List Char
  | [] => []
  | c :: rest =>
    if c = '%' then
      match rest with
      | '-' :: 'm' :: r => natChars m ++ strftimeAux y m d r
      | '-' :: 'd' :: r => natChars d ++ strftimeAux y m d r
      | '#' :: 'm' :: r => natChars m ++ strftimeAux y m d r
      | '#' :: 'd' :: r => natChars d ++ strftimeAux y m d r
      | 'Y' :: r => natChars y ++ strftimeAux y m d r
      | 'y' :: r => pad2 (y % 100) ++ strftimeAux y m d r
      | 'm' :: r => pad2 m ++ strftimeAux y m d r
      | 'd' :: r => pad2 d ++ strftimeAux y m d r
      | 'A' :: r => (weekdayNamesFull.getD (weekdayIndex y m d) "").data ++ strftimeAux y m d r
      | 'a' :: r => (weekdayNamesAbbr.getD (weekdayIndex y m d) "").data ++ strftimeAux y m d r
      | '%' :: r => '%' :: strftimeAux y m d r
      | c2 :: r => '%' :: c2 :: strftimeAux y m d r
      | [] => ['%']
    else
      c :: strftimeAux y m d rest

/-! ### format_date (WatermarkApp.py lines 61-87) -/

/-- The `fmt_map` dict of format_date in insertion order.  The `M` and `D`
values depend on `os.name` (`"%#m"`/`"%#d"` on Windows, `"%-m"`/`"%-d"`
elsewhere); `osNT` selects the branch. -/
def fmtMapEntries (osNT : Bool) : List (List Char × List Char) :=
  [("YYYY".data, "%Y".data), ("YY".data, "%y".data),
   ("MM".data, "%m".data), ("M".data, if osNT then "%#m".data else "%-m".data),
   ("DD".data, "%d".data), ("D".data, if osNT then "%#d".data else "%-d".data),
   ("AA".data, "%A".data), ("A".data, "%a".data)]

/-- `sorted(fmt_map.keys(), key=len, reverse=True)` paired with the mapped
values: a stable sort of the entries by descending key length, mirroring
CPython's stable `sorted`. -/
def sortedFmtEntries (osNT : Bool) : List (List Char × List Char) :=
  List.insertionSort (fun a b => b.1.length ≤ a.1.length) (fmtMapEntries osNT)

/-- The sequential `output_fmt = output_fmt.replace(key, fmt_map[key])` loop. -/
def applyReplacements (entries : List (List Char × List Char)) (l : List Char) : List Char :=
  entries.foldl (fun acc e => pyReplace e.1 e.2 acc) l

/-- format_date: strict `%Y-%m-%d` parse (ValueError on failure), uppercase the
template, substitute the table entries longest-key-first, then `strftime`. -/
def format_date (osNT : Bool) (dateStr fmt : String) : Except PyErr String :=
  match strptimeYMD dateStr.data with
  | none => .error .valueError
  | some (y, m, d) =>
    .ok ⟨strftimeAux y m d (applyReplacements (sortedFmtEntries osNT) (pyUpper fmt.data))⟩

/-! ### get_exif_date (WatermarkApp.py lines 24-59)

The Pillow objects are abstracted to the data the function actually reads: the
main IFD and the EXIF sub-IFD reached through the `ExifOffset` pointer tag,
both insertion-ordered `tag id -> string` maps.  `none` stands for any input
on which `Image.open`/`getexif` raises (unreadable file, malformed container):
the surrounding `try` swallows the exception and the function returns `""`.
The reverse table `{name: tid for tid, name in ExifTags.TAGS.items()}` is
replaced by the numeric Pillow tag ids themselves; all four ids exist and are
nonzero, so the `if not tag_id: continue` guard never fires. -/

/-- Pillow tag id of `DateTimeOriginal`. -/
def tagDateTimeOriginal : ℕ := 36867

/-- Pillow tag id of `DateTimeDigitized`. -/
def tagDateTimeDigitized : ℕ := 36868

/-- Pillow tag id of the top-level `DateTime`. -/
def tagDateTimeMain : ℕ := 306

/-- Pillow tag id of the `ExifOffset` pointer to the EXIF sub-IFD. -/
def tagExifOffset : ℕ := 34665

/-- EXIF metadata of one image: main IFD and EXIF sub-IFD entries. -/
structure ExifData where
  main : List (ℕ × String)
  sub : List (ℕ × String)

/-- `date_str.split(" ")[0].replace(":", "-")`. -/
def exifValueToDate (s : String) : String := ⟨pyReplace [':'] ['-'] (takeBeforeSpace s.data)⟩

/-- The `exif_ifd` local: the sub-IFD if the pointer tag is present in the main
IFD, an empty dict otherwise. -/
def effectiveSubIfd (ex : ExifData) : List (ℕ × String) :=
  if (List.lookup tagExifOffset ex.main).isSome then ex.sub else []

/-- The `tag_priority` list: (tag id, IFD kind), kind 0 = main, 1 = EXIF sub. -/
def tagPriorityList : List (ℕ × ℕ) :=
  [(tagDateTimeOriginal, 1), (tagDateTimeDigitized, 1), (tagDateTimeMain, 0)]

/-- The `for tag_name, ifd_type in tag_priority` loop: return the converted
date of the first truthy (non-empty) hit, else fall through to `""`. -/
def searchPriority (main subIfd : List (ℕ × String)) : List (ℕ × ℕ) → String
  | [] => ""
  | (tagId, ifdType) :: rest =>
    let ifdToSearch := if ifdType = 0 then main else subIfd
    match List.lookup tagId ifdToSearch with
    | some s => if s ≠ "" then exifValueToDate s else searchPriority main subIfd rest
    | none => searchPriority main subIfd rest

/-- get_exif_date: `if exif_data:` is the dict truthiness of the main IFD. -/
def get_exif_date : Option ExifData → String
  | none => ""
  | some ex =>
    if ex.main.isEmpty then ""
    else searchPriority ex.main (effectiveSubIfd ex) tagPriorityList

/-- First entry of a lookup-result list that is present and non-empty. -/
def firstNonEmptyStr : List (Option String) → Option String
  | [] => none
  | o :: rest =>
    match o with
    | some s => if s ≠ "" then some s else firstNonEmptyStr rest
    | none => firstNonEmptyStr rest

/-- Claim-side model of the extractor, following the spec's wording (C8): look
up `DateTimeOriginal` then `DateTimeDigitized` in the nested sub-block reached
via the pointer tag, then the top-level `DateTime`; return the date portion of
the first non-empty match with `:` converted to `-`; empty string on any
failure. -/
def exifExtractClaim : Option ExifData → String
  | none => ""
  | some ex =>
    let subIfd := effectiveSubIfd ex
    match firstNonEmptyStr [List.lookup tagDateTimeOriginal subIfd,
        List.lookup tagDateTimeDigitized subIfd, List.lookup tagDateTimeMain ex.main] with
    | some v => exifValueToDate v
    | none => ""

/-! ### get_position (WatermarkApp.py lines 502-524) -/

/-- get_position: the `pos_map` dict lookup with the bottom-right fallback for
unknown keys (the fallback also prints a warning, a side effect dropped here).
Coordinates are rationals because `margin` is a float; `중앙` uses Python's
integer floor division `W // 2`, `H // 2`. -/
def get_position (size : ℕ × ℕ) (margin : ℚ) (position : String) : (ℚ × ℚ) × String :=
  let W := size.1
  let H := size.2
  if position = "좌측 상단" then ((margin, margin), "lt")
  else if position = "우측 상단" then (((W : ℚ) - margin, margin), "rt")
  else if position = "좌측 하단" then ((margin, (H : ℚ) - margin), "lb")
  else if position = "우측 하단" then (((W : ℚ) - margin, (H : ℚ) - margin), "rb")
  else if position = "중앙" then ((((W / 2 : ℕ) : ℚ), ((H / 2 : ℕ) : ℚ)), "mm")
  else (((W : ℚ) - margin, (H : ℚ) - margin), "rb")

/-! ### hex_to_rgba (WatermarkApp.py lines 17-22) -/

/-- Hexadecimal digit value, upper or lower case. -/
def hexDigitVal (c : Char) : Option ℕ :=
  if '0' ≤ c ∧ c ≤ '9' then some (c.toNat - 48)
  else if 'a' ≤ c ∧ c ≤ 'f' then some (c.toNat - 87)
  else if 'A' ≤ c ∧ c ≤ 'F' then some (c.toNat - 55)
  else none

/-- Python `int(s, 16)` restricted to plain digit strings (the app only passes
slices of color strings; sign/whitespace/underscore forms do not occur).
`ValueError` on an empty slice or any non-hex character. -/
def pyIntHex (l : List Char) : Except PyErr ℕ :=
  match l with
  | [] => .error .valueError
  | _ =>
    match l.mapM hexDigitVal with
    | some ds => .ok (ds.foldl (fun a d => 16 * a + d) 0)
    | none => .error .valueError

/-- Python `str.lstrip('#')`. -/
def lstripHash : List Char → List Char
  | [] => []
  | c :: r => if c = '#' then lstripHash r else c :: r

/-- Python `int(q)`: truncation toward zero. -/
def pyIntTrunc (q : ℚ) : ℤ := if q < 0 then -(Int.floor (-q)) else Int.floor q

/-- hex_to_rgba: strip leading `#`, parse the three 2-character slices as hex,
and scale `alpha_percent` from 0-100 to 0-255 with `int(255 * (p / 100.0))`.
The first slice whose parse raises `ValueError` aborts the generator. -/
def hex_to_rgba (hexColor : String) (alphaPercent : ℚ) : Except PyErr (ℕ × ℕ × ℕ × ℤ) :=
  let hc := lstripHash hexColor.data
  match pyIntHex ((hc.drop 0).take 2) with
  | .error e => .error e
  | .ok r =>
    match pyIntHex ((hc.drop 2).take 2) with
    | .error e => .error e
    | .ok g =>
      match pyIntHex ((hc.drop 4).take 2) with
      | .error e => .error e
      | .ok b => .ok (r, g, b, pyIntTrunc (255 * (alphaPercent / 100)))

/-! ### _draw_watermark (WatermarkApp.py lines 539-583)

The Pillow image is abstracted to its size; the drawing calls are recorded as
a list of draw operations on the fresh transparent text layer, so that "which
rectangles/text are drawn where, with which arguments" is captured while the
rasterised pixels are not.  Text measurement (`draw.textbbox`) is an
uninterpreted parameter.  Font resolution (`ImageFont.truetype` with the
`load_default` fallback) never raises once the size variables are bound and
does not influence the recorded operations beyond the resolved pixel size, so
it is not modelled further. -/

/-- Size of a Pillow image. -/
structure PyImage where
  width : ℕ
  height : ℕ
deriving DecidableEq

/-- The style options read from the Tk variables by `_draw_watermark`. -/
structure StyleConfig where
  font_name : String
  font_size : ℚ
  font_color : String
  bg_color : String
  bg_opacity : ℚ
  bg_padding : ℚ
  position : String
  margin : ℚ
  size_mode : String
  date_format : String
deriving DecidableEq

/-- A text bounding box `(left, top, right, bottom)` as returned by
`draw.textbbox`. -/
structure BBox where
  left : ℚ
  top : ℚ
  right : ℚ
  bottom : ℚ
deriving DecidableEq

/-- Uninterpreted model of `draw.textbbox(pos, text, font=..., anchor=...)`:
arguments are the anchor position, the text, the resolved font pixel size and
the anchor mode. -/
def MeasureFn : Type := (ℚ × ℚ) → String → ℚ → String → BBox

/-- A drawing operation performed on the transparent text layer. -/
inductive DrawOp
  | rect (box : BBox) (fill : ℕ × ℕ × ℕ × ℤ)
  | text (pos : ℚ × ℚ) (content : String) (fontPx : ℚ) (anchor : String) (fill : String)
deriving DecidableEq

/-- Result of `_draw_watermark`: either the early `img.convert("RGBA")` return
(no layer composited) or the alpha-composite of the base image with a layer
holding the recorded operations. -/
inductive RenderResult
  | baseOnly
  | composited (ops : List DrawOp)
deriving DecidableEq

/-- The size-resolution block (lines 550-558): `if` pixel mode, `elif` percent
mode — and no `else`, embedded as `none`, in which case the first later use of
`font_px`/`margin_px`/`padding_px` raises `UnboundLocalError`. -/
def resolveSizes (sizeMode : String) (fontSize margin padding : ℚ) (w h : ℕ) :
    Option (ℚ × ℚ × ℚ) :=
  let baseSize : ℚ := ((max w h : ℕ) : ℚ)
  if sizeMode = "픽셀(px)" then some (fontSize, margin, padding)
  else if sizeMode = "백분율(%)" then
    some (baseSize * (fontSize / 100), baseSize * (margin / 100), baseSize * (padding / 100))
  else none

/-- _draw_watermark.  The `try` around format_date catches exactly the failure
of format_date and returns the alpha-converted base image.  If the size mode
is unrecognised the first use of `font_px` raises `UnboundLocalError` (the
`except` around the font load catches the first raise but its own
`load_default(font_px)` re-raises, uncaught).  A truthy (non-empty)
`bg_color` — including the literal string `"none"` — is passed to
`hex_to_rgba`, whose `ValueError` on a non-hex string propagates. -/
def drawWatermark (osNT : Bool) (cfg : StyleConfig) (meas : MeasureFn) (img : PyImage)
    (dateStr : String) : Except PyErr RenderResult :=
  match format_date osNT dateStr cfg.date_format with
  | .error _ => .ok .baseOnly
  | .ok dateText =>
    match resolveSizes cfg.size_mode cfg.font_size cfg.margin cfg.bg_padding
        img.width img.height with
    | none => .error .unboundLocalError
    | some (fontPx, marginPx, paddingPx) =>
      let pa := get_position (img.width, img.height) marginPx cfg.position
      let bbox := meas pa.1 dateText fontPx pa.2
      let textOp := DrawOp.text pa.1 dateText fontPx pa.2 cfg.font_color
      if cfg.bg_color = "" then
        .ok (.composited [textOp])
      else
        match hex_to_rgba cfg.bg_color cfg.bg_opacity with
        | .error e => .error e
        | .ok rgba =>
          .ok (.composited [DrawOp.rect
            ⟨bbox.left - paddingPx, bbox.top - paddingPx,
             bbox.right + paddingPx, bbox.bottom + paddingPx⟩ rgba, textOp])

/-! ### _apply_watermarks_thread (WatermarkApp.py lines 660-696)

`self.files` is the dict `iid -> {"path": ..., "date_str": ..., "rotation": ...}`
populated by `add_files`; it is embedded as an insertion-ordered list of
`(iid, ImageItem)` pairs.  Crucially, the loop header is
`for i, file_info in enumerate(self.files)`, which iterates the dict itself
and therefore binds `file_info` to the *iid key string* of each entry, not to
the item record.  Subscripting that string (`file_info["date_str"]`,
`file_info["path"]`) raises `TypeError`, and calling `.get` on it raises
`AttributeError`; both are embedded below.

The `self.is_processing` flag is shared mutable state read once per item at
the top of the loop; it is embedded as the trace `isProcessing : ℕ → Bool`
giving its value at loop-top of iteration `i`.  The observable effects kept in
the outcome are the three counters as reported by the final
`on_process_finished` scheduling and the number of per-item
`progress_bar.config` schedulings; `.raised` means the worker function died
with an uncaught exception, in which case neither is reported.  File I/O
(`Image.open` plus `exif_transpose`, and `save` with the preserved EXIF bytes)
is abstracted into `FileEnv`. -/

/-- One entry of `self.files`: `{"path": ..., "date_str": ..., "rotation": ...}`. -/
structure ImageItem where
  path : String
  date_str : String
  rotation : ℤ
deriving DecidableEq

/-- Subscripting a Python `str` with a string key (`file_info["date_str"]`)
raises `TypeError: string indices must be integers`. -/
def pyStrGetItem (_s _key : String) : Except PyErr String := .error .typeError

/-- Calling `.get(key, default)` on a Python `str` (`file_info.get("rotation", 0)`)
raises `AttributeError`. -/
def pyStrGetDefault (_s _key : String) (_default : ℤ) : Except PyErr ℤ := .error .attributeError

/-- File-system and codec environment of one batch run. -/
structure FileEnv where
  openImage : String → Except PyErr PyImage
  saveImage : String → Except PyErr Unit
  measure : MeasureFn

/-- `img.rotate(rotation, expand=True)` for the app's multiples of 90: the
canvas swaps its sides on odd quarter turns. -/
def rotateExpand (img : PyImage) (rotation : ℤ) : PyImage :=
  if rotation % 180 = 0 then img else ⟨img.height, img.width⟩

/-- `os.path.basename`. -/
def pyBasename (s : String) : String := ⟨(s.data.reverse.takeWhile (fun c => c ≠ '/')).reverse⟩

/-- `os.path.join` for the relative second components the app produces. -/
def pyJoin (d f : String) : String := ⟨d.data ++ '/' :: f.data⟩

/-- Per-item classification of the `try` body. -/
inductive ItemClass
  | classSuccess
  | classSkip
deriving DecidableEq

/-- The `try` body of one loop iteration, with `fileInfo` bound to the iid key
string the dict iteration yields: date check (skip on empty), open, preserve
EXIF bytes, rotate, render, convert, save, success. -/
def batchTryBody (osNT : Bool) (cfg : StyleConfig) (env : FileEnv)
    (saveMode outputDir : String) (fileInfo : String) : Except PyErr ItemClass := do
  let dateStr ← pyStrGetItem fileInfo "date_str"
  if dateStr = "" then
    return .classSkip
  else
    let path ← pyStrGetItem fileInfo "path"
    let img ← env.openImage path
    let rotation ← pyStrGetDefault fileInfo "rotation" 0
    let img := if rotation ≠ 0 then rotateExpand img rotation else img
    let _rendered ← drawWatermark osNT cfg env.measure img dateStr
    let savePath := if saveMode = "overwrite" then path else pyJoin outputDir (pyBasename path)
    let _ ← env.saveImage savePath
    return .classSuccess

/-- Observable outcome of the worker thread: the final
`on_process_finished(success, skipped, failed)` report plus the number of
progress-bar updates, or the uncaught exception that killed the thread. -/
inductive BatchOutcome
  | finished (success skipped failed progressCalls : ℕ)
  | raised (e : PyErr) (progressCalls : ℕ)
deriving DecidableEq

/-- The `for i, file_info in enumerate(self.files)` loop.  Loop-top cancel
check (`break` reports the counters gathered so far); `continue` on a skipped
item bypasses the per-item progress update; the `except` block increments
`failed` and then evaluates `file_info["path"]` for the error-dialog lambda's
default argument — if that raises, the exception escapes the handler and the
thread dies. -/
def applyWatermarksLoop (osNT : Bool) (cfg : StyleConfig) (env : FileEnv)
    (isProcessing : ℕ → Bool) (saveMode outputDir : String) :
    ℕ → ℕ → ℕ → ℕ → ℕ → List (String × ImageItem) → BatchOutcome
  | _, success, skipped, failed, progress, [] => .finished success skipped failed progress
  | i, success, skipped, failed, progress, (key, _) :: rest =>
    if isProcessing i then
      match batchTryBody osNT cfg env saveMode outputDir key with
      | .ok .classSkip =>
        applyWatermarksLoop osNT cfg env isProcessing saveMode outputDir
          (i + 1) success (skipped + 1) failed progress rest
      | .ok .classSuccess =>
        applyWatermarksLoop osNT cfg env isProcessing saveMode outputDir
          (i + 1) (success + 1) skipped failed (progress + 1) rest
      | .error _ =>
        match pyStrGetItem key "path" with
        | .ok _ =>
          applyWatermarksLoop osNT cfg env isProcessing saveMode outputDir
            (i + 1) success skipped (failed + 1) (progress + 1) rest
        | .error e2 => .raised e2 progress
    else .finished success skipped failed progress

/-- _apply_watermarks_thread: run the loop from zeroed counters and report. -/
def applyWatermarksThread (osNT : Bool) (cfg : StyleConfig) (env : FileEnv)
    (isProcessing : ℕ → Bool) (saveMode outputDir : String)
    (files : List (String × ImageItem)) : BatchOutcome :=
  applyWatermarksLoop osNT cfg env isProcessing saveMode outputDir 0 0 0 0 0 files

/-! ### Concrete fixtures for the claim instances -/

/-- A measurement function usable in closed instances: every text box is the
degenerate box at the origin. -/
def measureZero : MeasureFn := fun _ _ _ _ => ⟨0, 0, 0, 0⟩

/-- The app's default style options (the documented settings defaults). -/
def cfgDefault : StyleConfig :=
  { font_name := "Arial", font_size := 3, font_color := "#000000", bg_color := "#FFFFFF",
    bg_opacity := 50, bg_padding := 1, position := "우측 하단", margin := 3,
    size_mode := "백분율(%)", date_format := "YYYY-MM-DD" }

/-- Defaults with an empty date-format template. -/
def cfgEmptyFmt : StyleConfig := { cfgDefault with date_format := "" }

/-- Defaults with the spec's `"none"` background sentinel. -/
def cfgNoneSentinel : StyleConfig := { cfgDefault with bg_color := "none" }

/-- Defaults with an empty (falsy) background color. -/
def cfgNoBg : StyleConfig := { cfgDefault with bg_color := "" }

/-- Defaults with the size-mode label `"pixel"`, which the size-resolution
block does not recognise. -/
def cfgModeUnknown : StyleConfig := { cfgDefault with size_mode := "pixel" }

/-- Batch environment: every image opens as 100x100 except the deliberately
broken file, and every save succeeds. -/
def envTest : FileEnv :=
  { openImage := fun p => if p = "/photos/broken.jpg" then .error .oserror else .ok ⟨100, 100⟩,
    saveImage := fun _ => .ok (), measure := measureZero }

/-- The 5-item queue of the claimed batch scenario: item 2 has an empty date
string and item 4 is the broken file. -/
def files5 : List (String × ImageItem) :=
  [("I001", { path := "/photos/a.jpg", date_str := "2024-01-01", rotation := 0 }),
   ("I002", { path := "/photos/b.jpg", date_str := "", rotation := 0 }),
   ("I003", { path := "/photos/c.jpg", date_str := "2024-01-03", rotation := 0 }),
   ("I004", { path := "/photos/broken.jpg", date_str := "2024-01-04", rotation := 0 }),
   ("I005", { path := "/photos/e.jpg", date_str := "2024-01-05", rotation := 0 })]

/-- Whether an embedded Python computation raised (used to state the
format-failure contract of the renderer). -/
def formatFailed (r : Except PyErr String) : Bool :=
  match r with
  | .error _ => true
  | .ok _ => false

/-- The resolved font pixel size of a size-resolution result (0 if the
resolution fell through to the missing default branch). -/
def fontPxOf (o : Option (ℚ × ℚ × ℚ)) : ℚ := o.elim 0 (fun t => t.1)

/-! ### Helper lemmas -/

lemma resolveSizes_pixel (fs mg pd : ℚ) (w h : ℕ) :
    resolveSizes "픽셀(px)" fs mg pd w h = some (fs, mg, pd) := by
  rw [resolveSizes, if_pos rfl]

lemma resolveSizes_percent (fs mg pd : ℚ) (w h : ℕ) :
    resolveSizes "백분율(%)" fs mg pd w h =
      some (((max w h : ℕ) : ℚ) * (fs / 100), ((max w h : ℕ) : ℚ) * (mg / 100),
        ((max w h : ℕ) : ℚ) * (pd / 100)) := by
  rw [resolveSizes, if_neg (by decide), if_pos rfl]

lemma resolveSizes_unknown (mode : String) (fs mg pd : ℚ) (w h : ℕ)
    (h1 : mode ≠ "픽셀(px)") (h2 : mode ≠ "백분율(%)") :
    resolveSizes mode fs mg pd w h = none := by
  rw [resolveSizes, if_neg h1, if_neg h2]

lemma get_position_lt (W H : ℕ) (m : ℚ) :
    get_position (W, H) m "좌측 상단" = ((m, m), "lt") := by
  rw [get_position, if_pos rfl]

lemma get_position_rt (W H : ℕ) (m : ℚ) :
    get_position (W, H) m "우측 상단" = (((W : ℚ) - m, m), "rt") := by
  rw [get_position, if_neg (by decide), if_pos rfl]

lemma get_position_lb (W H : ℕ) (m : ℚ) :
    get_position (W, H) m "좌측 하단" = ((m, (H : ℚ) - m), "lb") := by
  rw [get_position, if_neg (by decide), if_neg (by decide), if_pos rfl]

lemma get_position_rb (W H : ℕ) (m : ℚ) :
    get_position (W, H) m "우측 하단" = (((W : ℚ) - m, (H : ℚ) - m), "rb") := by
  rw [get_position, if_neg (by decide), if_neg (by decide), if_neg (by decide), if_pos rfl]

lemma get_position_mm (W H : ℕ) (m : ℚ) :
    get_position (W, H) m "중앙" = ((((W / 2 : ℕ) : ℚ), ((H / 2 : ℕ) : ℚ)), "mm") := by
  rw [get_position, if_neg (by decide), if_neg (by decide), if_neg (by decide),
    if_neg (by decide), if_pos rfl]

lemma get_position_fallback (W H : ℕ) (m : ℚ) (pos : String)
    (h : pos ∉ (["좌측 상단", "우측 상단", "좌측 하단", "우측 하단", "중앙"] : List String)) :
    get_position (W, H) m pos = (((W : ℚ) - m, (H : ℚ) - m), "rb") := by
  have h1 : pos ≠ "좌측 상단" := by rintro rfl; exact h (by decide)
  have h2 : pos ≠ "우측 상단" := by rintro rfl; exact h (by decide)
  have h3 : pos ≠ "좌측 하단" := by rintro rfl; exact h (by decide)
  have h4 : pos ≠ "우측 하단" := by rintro rfl; exact h (by decide)
  have h5 : pos ≠ "중앙" := by rintro rfl; exact h (by decide)
  rw [get_position, if_neg h1, if_neg h2, if_neg h3, if_neg h4, if_neg h5]

lemma drawWatermark_fmt_err (osNT : Bool) (cfg : StyleConfig) (meas : MeasureFn) (img : PyImage)
    (dateStr : String) (e : PyErr) (hf : format_date osNT dateStr cfg.date_format = .error e) :
    drawWatermark osNT cfg meas img dateStr = .ok .baseOnly := by
  rw [drawWatermark, hf]

lemma drawWatermark_unbound (osNT : Bool) (cfg : StyleConfig) (meas : MeasureFn) (img : PyImage)
    (dateStr t : String)
    (hf : format_date osNT dateStr cfg.date_format = .ok t)
    (hs : resolveSizes cfg.size_mode cfg.font_size cfg.margin cfg.bg_padding
        img.width img.height = none) :
    drawWatermark osNT cfg meas img dateStr = .error .unboundLocalError := by
  rw [drawWatermark, hf, hs]

lemma drawWatermark_no_bg (osNT : Bool) (cfg : StyleConfig) (meas : MeasureFn) (img : PyImage)
    (dateStr t : String) (f mg p : ℚ)
    (hf : format_date osNT dateStr cfg.date_format = .ok t)
    (hs : resolveSizes cfg.size_mode cfg.font_size cfg.margin cfg.bg_padding
        img.width img.height = some (f, mg, p))
    (hbg : cfg.bg_color = "") :
    drawWatermark osNT cfg meas img dateStr =
      .ok (.composited [DrawOp.text (get_position (img.width, img.height) mg cfg.position).1 t f
        (get_position (img.width, img.height) mg cfg.position).2 cfg.font_color]) := by
  rw [drawWatermark, hf, hs]
  simp [hbg]

lemma drawWatermark_bg (osNT : Bool) (cfg : StyleConfig) (meas : MeasureFn) (img : PyImage)
    (dateStr t : String) (f mg p : ℚ) (rgba : ℕ × ℕ × ℕ × ℤ)
    (hf : format_date osNT dateStr cfg.date_format = .ok t)
    (hs : resolveSizes cfg.size_mode cfg.font_size cfg.margin cfg.bg_padding
        img.width img.height = some (f, mg, p))
    (hbg : cfg.bg_color ≠ "")
    (hh : hex_to_rgba cfg.bg_color cfg.bg_opacity = .ok rgba) :
    drawWatermark osNT cfg meas img dateStr =
      (let pa := get_position (img.width, img.height) mg cfg.position
       let bbox := meas pa.1 t f pa.2
       .ok (.composited [DrawOp.rect ⟨bbox.left - p, bbox.top - p, bbox.right + p,
         bbox.bottom + p⟩ rgba, DrawOp.text pa.1 t f pa.2 cfg.font_color])) := by
  rw [drawWatermark, hf, hs]
  simp only [if_neg hbg, hh]

lemma drawWatermark_bg_err (osNT : Bool) (cfg : StyleConfig) (meas : MeasureFn) (img : PyImage)
    (dateStr t : String) (f mg p : ℚ) (e : PyErr)
    (hf : format_date osNT dateStr cfg.date_format = .ok t)
    (hs : resolveSizes cfg.size_mode cfg.font_size cfg.margin cfg.bg_padding
        img.width img.height = some (f, mg, p))
    (hbg : cfg.bg_color ≠ "")
    (hh : hex_to_rgba cfg.bg_color cfg.bg_opacity = .error e) :
    drawWatermark osNT cfg meas img dateStr = .error e := by
  rw [drawWatermark, hf, hs]
  simp only [if_neg hbg, hh]

lemma pyIntTrunc_of_nonneg (q : ℚ) (h : 0 ≤ q) : pyIntTrunc q = Int.floor q := by
  rw [pyIntTrunc, if_neg (not_lt.mpr h)]

lemma hex_FFFFFF (ap : ℚ) :
    hex_to_rgba "#FFFFFF" ap = .ok (255, 255, 255, pyIntTrunc (255 * (ap / 100))) := rfl

lemma pyIntTrunc_127 : pyIntTrunc (255 * ((50 : ℚ) / 100)) = 127 := by
  rw [pyIntTrunc_of_nonneg _ (by norm_num)]
  norm_num [Int.floor_eq_iff]

lemma hex_to_rgba_alpha (hc : String) (ap : ℚ) (r g b : ℕ) (a : ℤ)
    (h : hex_to_rgba hc ap = .ok (r, g, b, a)) : a = pyIntTrunc (255 * (ap / 100)) := by
  rw [hex_to_rgba] at h
  rcases h1 : pyIntHex (((lstripHash hc.data).drop 0).take 2) with e1 | v1 <;> rw [h1] at h
  · exact absurd h (by simp)
  rcases h2 : pyIntHex (((lstripHash hc.data).drop 2).take 2) with e2 | v2 <;> rw [h2] at h
  · exact absurd h (by simp)
  rcases h3 : pyIntHex (((lstripHash hc.data).drop 4).take 2) with e3 | v3 <;> rw [h3] at h
  · exact absurd h (by simp)
  have := (Except.ok.injEq _ _).mp h
  exact (Prod.mk.injEq _ _ _ _ |>.mp ((Prod.mk.injEq _ _ _ _ |>.mp
    ((Prod.mk.injEq _ _ _ _ |>.mp this).2)).2)).2.symm

lemma pyUpper_eq_self (l : List Char) (h : ∀ c ∈ l, ¬('a' ≤ c ∧ c ≤ 'z')) :
    pyUpper l = l := by
  induction l with
  | nil => rfl
  | cons c rest ih =>
    have hc : pyUpperChar c = c := if_neg (h c (List.mem_cons_self c rest))
    simp only [pyUpper, List.map_cons] at *
    rw [hc, ih (fun x hx => h x (List.mem_cons_of_mem c hx))]

lemma replaceFuel_eq_self (c0 : Char) (k v l : List Char) (fuel : ℕ)
    (h : ∀ c ∈ l, c ≠ c0) : replaceFuel (c0 :: k) v fuel l = l := by
  induction fuel generalizing l with
  | zero => rfl
  | succ n ih =>
    cases l with
    | nil => rfl
    | cons c rest =>
      have hc : c ≠ c0 := h c (List.mem_cons_self c rest)
      have hpre : ¬((c0 :: k) ≠ [] ∧ List.isPrefixOf (c0 :: k) (c :: rest) = true) := by
        rintro ⟨-, hp⟩
        rw [List.isPrefixOf] at hp
        have : c0 = c := by
          have hb := (Bool.and_eq_true _ _).mp hp |>.1
          exact beq_iff_eq.mp hb
        exact hc this.symm
      rw [replaceFuel, if_neg hpre, ih rest (fun x hx => h x (List.mem_cons_of_mem c hx))]

lemma applyReplacements_eq_self (entries : List (List Char × List Char)) (l : List Char)
    (h : ∀ e ∈ entries, ∃ c0 k, e.1 = c0 :: k ∧ ∀ c ∈ l, c ≠ c0) :
    applyReplacements entries l = l := by
  induction entries with
  | nil => rfl
  | cons e rest ih =>
    obtain ⟨c0, k, hk, hc⟩ := h e (List.mem_cons_self e rest)
    have h1 : pyReplace e.1 e.2 l = l := by
      rw [pyReplace, hk]
      exact replaceFuel_eq_self c0 k e.2 l l.length hc
    simp only [applyReplacements, List.foldl_cons] at *
    rw [h1]
    exact ih (fun x hx => h x (List.mem_cons_of_mem e hx))

lemma strftimeAux_eq_self (y m d : ℕ) (l : List Char) (h : ∀ c ∈ l, c ≠ '%') :
    strftimeAux y m d l = l := by
  induction l with
  | nil => rfl
  | cons c rest ih =>
    have hc : c ≠ '%' := h c (List.mem_cons_self c rest)
    rw [strftimeAux.eq_def]
    simp only [if_neg hc]
    rw [ih (fun x hx => h x (List.mem_cons_of_mem c hx))]

lemma sortedFmtEntries_keys (osNT : Bool) :
    (sortedFmtEntries osNT).map Prod.fst =
      ["YYYY".data, "YY".data, "MM".data, "DD".data, "AA".data,
       "M".data, "D".data, "A".data] := by
  cases osNT <;> decide

lemma searchStep (main sub : List (ℕ × String)) (t k : ℕ) (rest : List (ℕ × ℕ))
    (contR : List (Option String))
    (hc : searchPriority main sub rest =
      (match firstNonEmptyStr contR with | some v => exifValueToDate v | none => "")) :
    searchPriority main sub ((t, k) :: rest) =
      (match firstNonEmptyStr (List.lookup t (if k = 0 then main else sub) :: contR) with
       | some v => exifValueToDate v
       | none => "") := by
  have hLHS : searchPriority main sub ((t, k) :: rest) =
      (match List.lookup t (if k = 0 then main else sub) with
       | some s => if s ≠ "" then exifValueToDate s else searchPriority main sub rest
       | none => searchPriority main sub rest) := rfl
  have hRHS : firstNonEmptyStr (List.lookup t (if k = 0 then main else sub) :: contR) =
      (match List.lookup t (if k = 0 then main else sub) with
       | some s => if s ≠ "" then some s else firstNonEmptyStr contR
       | none => firstNonEmptyStr contR) := rfl
  rw [hLHS, hRHS]
  cases ho : List.lookup t (if k = 0 then main else sub) with
  | none => exact hc
  | some s =>
    show (if s ≠ "" then exifValueToDate s else searchPriority main sub rest) =
      (match (if s ≠ "" then some s else firstNonEmptyStr contR) with
       | some v => exifValueToDate v
       | none => "")
    by_cases hs : s = ""
    · rw [if_neg (by simp [hs]), if_neg (by simp [hs])]
      exact hc
    · rw [if_pos hs, if_pos hs]

/-! ### Claim theorems -/

/-- C1: the claim states that the batch run classifies every processed item as
success/skipped/failed, that the 5-item queue (one empty-date item, one broken
file) yields success=3, skipped=1, failed=1, and that the progress callback
fires 5 times.  The code instead iterates the files dict itself, binding each
iid key string; `file_info["date_str"]` raises TypeError on the very first
item, the except handler re-raises TypeError while evaluating
`file_info["path"]` for the dialog lambda's default argument, and the worker
thread dies: no item is classified, the progress callback fires 0 times, and
the completion report never runs.  This theorem evaluates the embedded worker
on exactly the claimed queue. -/
theorem c1_batch_loop_raises_on_first_item :
    applyWatermarksThread false cfgDefault envTest (fun _ => true) "separate" "/out" files5 =
      .raised .typeError 0 := rfl

/-- C2 (amended): compose on an empty or unparsable date string never raises
and returns the alpha-converted base image unchanged (the early-return path);
the original claim's final clause — that a date formatting to zero-length
text takes the same no-op path — is refuted by
`c2_zero_length_text_counterexample`. -/
theorem c2_invalid_date_noop :
    ∀ (osNT : Bool) (cfg : StyleConfig) (meas : MeasureFn) (img : PyImage) (d : String),
      formatFailed (format_date osNT d cfg.date_format) = true →
      drawWatermark osNT cfg meas img d = .ok .baseOnly := by
  intro b cfg meas img d h
  rcases hf : format_date b d cfg.date_format with e | t
  · exact drawWatermark_fmt_err b cfg meas img d e hf
  · rw [hf] at h
    exact absurd h (by simp [formatFailed])

/-- C2 witness: the empty date string and a non-date string both fail to
parse, and compose returns the alpha-converted base image. -/
theorem c2_invalid_date_noop_witness :
    formatFailed (format_date false "" cfgDefault.date_format) = true ∧
    drawWatermark false cfgDefault measureZero ⟨100, 50⟩ "" = .ok .baseOnly ∧
    drawWatermark false cfgDefault measureZero ⟨100, 50⟩ "not-a-date" = .ok .baseOnly :=
  ⟨by decide,
   c2_invalid_date_noop false cfgDefault measureZero ⟨100, 50⟩ "" (by decide),
   c2_invalid_date_noop false cfgDefault measureZero ⟨100, 50⟩ "not-a-date" (by decide)⟩

/-- C2 counterexample: with the default style (background `#FFFFFF`) and an
empty template, the valid date `2024-01-05` formats to zero-length text, yet
compose does not take the no-op path: it draws the padding-sized background
rectangle and the (empty) text, so the result is not the alpha-converted base
image. -/
theorem c2_zero_length_text_counterexample :
    drawWatermark false cfgEmptyFmt measureZero ⟨100, 50⟩ "2024-01-05" ≠ .ok .baseOnly ∧
    drawWatermark false cfgEmptyFmt measureZero ⟨100, 50⟩ "2024-01-05" =
      .ok (.composited [DrawOp.rect ⟨-1, -1, 1, 1⟩ (255, 255, 255, 127),
        DrawOp.text (97, 47) "" 3 "rb" "#000000"]) := by
  have hf : format_date false "2024-01-05" cfgEmptyFmt.date_format = .ok "" := by decide
  have hs : resolveSizes cfgEmptyFmt.size_mode cfgEmptyFmt.font_size cfgEmptyFmt.margin
      cfgEmptyFmt.bg_padding 100 50 = some (3, 3, 1) := by
    show resolveSizes "백분율(%)" 3 3 1 100 50 = some (3, 3, 1)
    rw [resolveSizes_percent]
    norm_num
  have hh : hex_to_rgba cfgEmptyFmt.bg_color cfgEmptyFmt.bg_opacity =
      .ok (255, 255, 255, 127) := by
    show hex_to_rgba "#FFFFFF" 50 = _
    rw [hex_FFFFFF, pyIntTrunc_127]
  have hp : get_position (100, 50) 3 "우측 하단" = ((97, 47), "rb") := by
    rw [get_position_rb]
    norm_num
  have h2 : drawWatermark false cfgEmptyFmt measureZero ⟨100, 50⟩ "2024-01-05" =
      .ok (.composited [DrawOp.rect ⟨-1, -1, 1, 1⟩ (255, 255, 255, 127),
        DrawOp.text (97, 47) "" 3 "rb" "#000000"]) := by
    rw [drawWatermark_bg false cfgEmptyFmt measureZero ⟨100, 50⟩ "2024-01-05" "" 3 3 1
      (255, 255, 255, 127) hf hs (by decide) hh]
    dsimp only [cfgEmptyFmt, cfgDefault, measureZero]
    rw [hp]
    dsimp only
    simp only [Except.ok.injEq, RenderResult.composited.injEq, List.cons.injEq,
      DrawOp.rect.injEq, DrawOp.text.injEq, BBox.mk.injEq, Prod.mk.injEq, and_true, true_and]
    norm_num
  refine ⟨fun hcontra => ?_, h2⟩
  rw [h2] at hcontra
  exact RenderResult.noConfusion (Except.ok.inj hcontra)

/-- C3 counterexample: format("1999-01-31", "YY. M. D.") returns
"99. 1. 31." — the template's trailing period is preserved — and not the
claimed "99. 1. 31"; moreover the A token IS mis-substituted inside the output
of the earlier AA replacement (%A becomes %%a), so format("1999-01-31", "AA")
renders the literal "%a" instead of the weekday name "Sunday". -/
theorem c3_token_substitution_counterexample :
    format_date false "1999-01-31" "YY. M. D." = .ok "99. 1. 31." ∧
    ("99. 1. 31." : String) ≠ "99. 1. 31" ∧
    format_date false "1999-01-31" "AA" = .ok "%a" ∧
    ("%a" : String) ≠ "Sunday" := by decide

/-- C3 (amended): the replacement loop runs longest-key-first — the sorted key
order is YYYY, YY, MM, DD, AA, M, D, A — which prevents mis-substitution
inside a longer token (YYYY-MM-DD and M/D/YYYY format correctly), and
format("1999-01-31", "YY. M. D.") equals "99. 1. 31." (with the trailing
period); but a shorter token can still be substituted inside an earlier
replacement's output: A rewrites the A of AA's replacement %A, so a template
containing AA yields the literal %a, on both os.name branches. -/
theorem c3_token_substitution_amended :
    ∀ osNT : Bool,
      (sortedFmtEntries osNT).map (fun e => String.mk e.1) =
        ["YYYY", "YY", "MM", "DD", "AA", "M", "D", "A"] ∧
      format_date osNT "1999-01-31" "YY. M. D." = .ok "99. 1. 31." ∧
      format_date osNT "1999-01-31" "YYYY-MM-DD" = .ok "1999-01-31" ∧
      format_date osNT "1999-01-31" "M/D/YYYY" = .ok "1/31/1999" ∧
      format_date osNT "1999-01-31" "AA" = .ok "%a" := by
  intro b
  cases b <;> exact ⟨by decide, by decide, by decide, by decide, by decide⟩

/-- C4 counterexample: the literal character `x` of the template "YYYY x"
does not pass through unchanged — the whole template is uppercased first, so
format("1999-01-31", "YYYY x") is "1999 X", not "1999 x". -/
theorem c4_literal_case_counterexample :
    format_date false "1999-01-31" "YYYY x" = .ok "1999 X" ∧
    ("1999 X" : String) ≠ "1999 x" := by decide

/-- C4 (amended): token matching is case-insensitive — two templates equal up
to the uppercasing pass format to the same result — and literal ASCII
characters that are not letters and not `%` (spaces, digits, punctuation)
pass through unchanged: a template made only of such characters is returned
verbatim.  Literal letters, however, do not keep their original case: the
whole template is uppercased by the initial `fmt.upper()` (see the
counterexample `format("1999-01-31", "YYYY x") = "1999 X"`), and an
uppercased literal letter Y/M/D/A is consumed as a token.  (The pass-through
clause is restricted to ASCII literals, where the `pyUpper` model coincides
with Python's `str.upper()`; Python also uppercases cased non-ASCII letters,
so those do not pass through either.) -/
theorem c4_case_insensitive_literal_amended :
    (∀ (osNT : Bool) (d fmt1 fmt2 : String),
      pyUpper fmt1.data = pyUpper fmt2.data →
      format_date osNT d fmt1 = format_date osNT d fmt2) ∧
    (∀ (osNT : Bool) (d lit : String),
      (strptimeYMD d.data).isSome = true →
      (∀ c ∈ lit.data,
        c.toNat < 128 ∧ ¬('A' ≤ c ∧ c ≤ 'Z') ∧ ¬('a' ≤ c ∧ c ≤ 'z') ∧ c ≠ '%') →
      format_date osNT d lit = .ok lit) := by
  constructor
  · intro b d f1 f2 h
    rw [format_date, format_date, h]
  · intro b d lit hparse hlit
    obtain ⟨⟨y, m, dd⟩, hp⟩ := Option.isSome_iff_exists.mp hparse
    have hupper : pyUpper lit.data = lit.data :=
      pyUpper_eq_self lit.data (fun c hc => (hlit c hc).2.2.1)
    have hup : ∀ (c0 : Char), 'A' ≤ c0 → c0 ≤ 'Z' → ∀ c ∈ lit.data, c ≠ c0 := by
      intro c0 hA hZ c hc heq
      exact (hlit c hc).2.1 (heq ▸ ⟨hA, hZ⟩)
    have hrepl : applyReplacements (sortedFmtEntries b) lit.data = lit.data := by
      apply applyReplacements_eq_self
      intro e he
      have hkeys : e.1 ∈ (sortedFmtEntries b).map Prod.fst := List.mem_map_of_mem _ he
      rw [sortedFmtEntries_keys] at hkeys
      simp only [List.mem_cons, List.not_mem_nil, or_false] at hkeys
      rcases hkeys with h | h | h | h | h | h | h | h
      · exact ⟨'Y', ['Y', 'Y', 'Y'], by rw [h], hup 'Y' (by decide) (by decide)⟩
      · exact ⟨'Y', ['Y'], by rw [h], hup 'Y' (by decide) (by decide)⟩
      · exact ⟨'M', ['M'], by rw [h], hup 'M' (by decide) (by decide)⟩
      · exact ⟨'D', ['D'], by rw [h], hup 'D' (by decide) (by decide)⟩
      · exact ⟨'A', ['A'], by rw [h], hup 'A' (by decide) (by decide)⟩
      · exact ⟨'M', [], by rw [h], hup 'M' (by decide) (by decide)⟩
      · exact ⟨'D', [], by rw [h], hup 'D' (by decide) (by decide)⟩
      · exact ⟨'A', [], by rw [h], hup 'A' (by decide) (by decide)⟩
    rw [format_date, hp]
    show Except.ok ⟨strftimeAux y m dd (applyReplacements (sortedFmtEntries b)
      (pyUpper lit.data))⟩ = Except.ok lit
    rw [hupper, hrepl, strftimeAux_eq_self y m dd lit.data (fun c hc => (hlit c hc).2.2.2)]

/-- C4 witness: a lowercase template formats like its uppercase form, and a
template of digits, spaces and punctuation passes through verbatim. -/
theorem c4_case_insensitive_literal_amended_witness :
    format_date false "1999-01-31" "yyyy-mm-dd" = format_date false "1999-01-31" "YYYY-MM-DD" ∧
    format_date false "1999-01-31" "12. 3. 4 ~ !" = .ok "12. 3. 4 ~ !" :=
  ⟨c4_case_insensitive_literal_amended.1 false "1999-01-31" "yyyy-mm-dd" "YYYY-MM-DD"
    (by decide),
   c4_case_insensitive_literal_amended.2 false "1999-01-31" "12. 3. 4 ~ !"
    (by decide) (by decide)⟩

/-- C5: get_position is pure and total — each of the five known position
labels returns exactly the spec table's anchor point and Pillow anchor code
(좌측 상단 = top-left/"lt", 우측 상단 = top-right/"rt", 좌측 하단 =
bottom-left/"lb", 우측 하단 = bottom-right/"rb", 중앙 = center/"mm" at the
floor-divided midpoint), every unknown label falls back to the bottom-right
result, and place(1000, 800, 20, "unknown") = ((980, 780), right-bottom). -/
theorem c5_place_pure_total :
    (∀ (W H : ℕ) (m : ℚ),
      get_position (W, H) m "좌측 상단" = ((m, m), "lt") ∧
      get_position (W, H) m "우측 상단" = (((W : ℚ) - m, m), "rt") ∧
      get_position (W, H) m "좌측 하단" = ((m, (H : ℚ) - m), "lb") ∧
      get_position (W, H) m "우측 하단" = (((W : ℚ) - m, (H : ℚ) - m), "rb") ∧
      get_position (W, H) m "중앙" = ((((W / 2 : ℕ) : ℚ), ((H / 2 : ℕ) : ℚ)), "mm")) ∧
    (∀ (W H : ℕ) (m : ℚ) (pos : String),
      pos ∉ (["좌측 상단", "우측 상단", "좌측 하단", "우측 하단", "중앙"] : List String) →
      get_position (W, H) m pos = (((W : ℚ) - m, (H : ℚ) - m), "rb")) ∧
    get_position (1000, 800) 20 "unknown" = ((980, 780), "rb") := by
  refine ⟨fun W H m => ⟨get_position_lt W H m, get_position_rt W H m, get_position_lb W H m,
    get_position_rb W H m, get_position_mm W H m⟩, get_position_fallback, ?_⟩
  rw [get_position_fallback 1000 800 20 "unknown" (by decide)]
  norm_num

/-- C5 witness: another unknown label at concrete sizes falls back to the
bottom-right anchor. -/
theorem c5_place_pure_total_witness :
    get_position (640, 480) 10 "bogus" = ((630, 470), "rb") := by
  rw [c5_place_pure_total.2.1 640 480 10 "bogus" (by decide)]
  norm_num

/-- C6 counterexample: the spec's sentinel "none" is not special-cased by the
code — `if bg_color_hex:` is truthy on "none", `int("no", 16)` raises
ValueError, and compose dies instead of drawing nothing. -/
theorem c6_none_sentinel_counterexample :
    drawWatermark false cfgNoneSentinel measureZero ⟨100, 50⟩ "2024-01-05" =
      .error .valueError ∧
    drawWatermark false cfgNoneSentinel measureZero ⟨100, 50⟩ "2024-01-05" ≠
      .ok .baseOnly := by
  have h1 : drawWatermark false cfgNoneSentinel measureZero ⟨100, 50⟩ "2024-01-05" =
      .error .valueError := rfl
  exact ⟨h1, fun h => Except.noConfusion (h1 ▸ h)⟩

/-- C6 (amended): with backgroundColor unset (empty string) no background
rectangle is drawn — the overlay holds exactly the text operation, so every
pixel outside the drawn text is untouched; with a parsable #RRGGBB
backgroundColor, a filled rectangle expanded by the resolved padding on all
four sides of the measured text box is drawn, with alpha =
int(255 * opacity / 100), i.e. the floor of the linear 0-100 → 0-255 scale;
the sentinel "none" is NOT special-cased (see the counterexample). -/
theorem c6_background_rectangle_amended :
    (∀ (osNT : Bool) (cfg : StyleConfig) (meas : MeasureFn) (img : PyImage) (d t : String)
        (f mg p : ℚ),
      format_date osNT d cfg.date_format = .ok t →
      resolveSizes cfg.size_mode cfg.font_size cfg.margin cfg.bg_padding
        img.width img.height = some (f, mg, p) →
      cfg.bg_color = "" →
      drawWatermark osNT cfg meas img d =
        .ok (.composited [DrawOp.text (get_position (img.width, img.height) mg cfg.position).1
          t f (get_position (img.width, img.height) mg cfg.position).2 cfg.font_color])) ∧
    (∀ (osNT : Bool) (cfg : StyleConfig) (meas : MeasureFn) (img : PyImage) (d t : String)
        (f mg p : ℚ) (rgba : ℕ × ℕ × ℕ × ℤ),
      format_date osNT d cfg.date_format = .ok t →
      resolveSizes cfg.size_mode cfg.font_size cfg.margin cfg.bg_padding
        img.width img.height = some (f, mg, p) →
      cfg.bg_color ≠ "" →
      hex_to_rgba cfg.bg_color cfg.bg_opacity = .ok rgba →
      drawWatermark osNT cfg meas img d =
        (let pa := get_position (img.width, img.height) mg cfg.position
         let bbox := meas pa.1 t f pa.2
         .ok (.composited [DrawOp.rect ⟨bbox.left - p, bbox.top - p, bbox.right + p,
           bbox.bottom + p⟩ rgba, DrawOp.text pa.1 t f pa.2 cfg.font_color]))) ∧
    (∀ (hc : String) (ap : ℚ) (r g b : ℕ) (a : ℤ),
      hex_to_rgba hc ap = .ok (r, g, b, a) → a = pyIntTrunc (255 * (ap / 100))) ∧
    (∀ ap : ℕ, pyIntTrunc (255 * ((ap : ℚ) / 100)) = Int.floor ((255 * (ap : ℚ)) / 100)) := by
  refine ⟨drawWatermark_no_bg, drawWatermark_bg, hex_to_rgba_alpha, fun ap => ?_⟩
  rw [pyIntTrunc_of_nonneg _ (by positivity)]
  congr 1
  ring

/-- C6 witness: on a 100x50 image with the default percent-mode style, an
empty background draws only the text, while #FFFFFF at opacity 50 draws the
measured box expanded by the 1-pixel-resolved padding with alpha 127. -/
theorem c6_background_rectangle_amended_witness :
    drawWatermark false cfgNoBg measureZero ⟨100, 50⟩ "2024-01-05" =
      .ok (.composited [DrawOp.text (97, 47) "2024-01-05" 3 "rb" "#000000"]) ∧
    drawWatermark false cfgDefault measureZero ⟨100, 50⟩ "2024-01-05" =
      .ok (.composited [DrawOp.rect ⟨-1, -1, 1, 1⟩ (255, 255, 255, 127),
        DrawOp.text (97, 47) "2024-01-05" 3 "rb" "#000000"]) ∧
    (127 : ℤ) = pyIntTrunc (255 * ((50 : ℚ) / 100)) := by
  have hp : get_position (100, 50) 3 "우측 하단" = ((97, 47), "rb") := by
    rw [get_position_rb]
    norm_num
  have hsA : resolveSizes cfgNoBg.size_mode cfgNoBg.font_size cfgNoBg.margin
      cfgNoBg.bg_padding 100 50 = some (3, 3, 1) := by
    show resolveSizes "백분율(%)" 3 3 1 100 50 = some (3, 3, 1)
    rw [resolveSizes_percent]
    norm_num
  have hsB : resolveSizes cfgDefault.size_mode cfgDefault.font_size cfgDefault.margin
      cfgDefault.bg_padding 100 50 = some (3, 3, 1) := by
    show resolveSizes "백분율(%)" 3 3 1 100 50 = some (3, 3, 1)
    rw [resolveSizes_percent]
    norm_num
  have hh : hex_to_rgba cfgDefault.bg_color cfgDefault.bg_opacity =
      .ok (255, 255, 255, 127) := by
    show hex_to_rgba "#FFFFFF" 50 = _
    rw [hex_FFFFFF, pyIntTrunc_127]
  refine ⟨?_, ?_,
    c6_background_rectangle_amended.2.2.1 "#FFFFFF" 50 255 255 255 127 ?_⟩
  · rw [c6_background_rectangle_amended.1 false cfgNoBg measureZero ⟨100, 50⟩ "2024-01-05"
      "2024-01-05" 3 3 1 (by decide) hsA rfl]
    dsimp only [cfgNoBg, cfgDefault]
    rw [hp]
  · rw [c6_background_rectangle_amended.2.1 false cfgDefault measureZero ⟨100, 50⟩
      "2024-01-05" "2024-01-05" 3 3 1 (255, 255, 255, 127) (by decide) hsB (by decide) hh]
    dsimp only [cfgDefault, measureZero]
    rw [hp]
    dsimp only
    simp only [Except.ok.injEq, RenderResult.composited.injEq, List.cons.injEq,
      DrawOp.rect.injEq, DrawOp.text.injEq, BBox.mk.injEq, Prod.mk.injEq, and_true, true_and]
    norm_num
  · show hex_to_rgba "#FFFFFF" 50 = _
    rw [hex_FFFFFF, pyIntTrunc_127]

/-- C7: the claim states that once the cancel flag is observed at loop-top no
further item is counted, and that cancelling after processing item 2 of 5
yields reported counts summing to at most 2.  The loop-top poll does exist —
with the flag cleared before the first item the run reports counts 0/0/0 with
no progress callback — but on any nonempty queue the first iteration already
raises TypeError (the loop iterates dict keys, see C1), so the
cancel-after-two-items scenario is unreachable: with the flag cleared from
iteration 2 on, the worker still dies on item 1 and never reports counts. -/
theorem c7_cancellation_scenario_unreachable :
    applyWatermarksThread false cfgDefault envTest (fun i => decide (i < 2)) "separate" "/out"
      files5 = .raised .typeError 0 ∧
    applyWatermarksThread false cfgDefault envTest (fun _ => false) "separate" "/out" files5 =
      .finished 0 0 0 0 := ⟨rfl, rfl⟩

/-- C8: get_exif_date never raises and equals, pointwise over all metadata
inputs (including the `none` input standing for an unreadable file or any
raising codec call), the claim-side extractor: first non-empty of
DateTimeOriginal then DateTimeDigitized in the sub-block reached via the
pointer tag, then top-level DateTime, returning the date portion with `:`
converted to `-`, and the empty string on any failure. -/
theorem c8_exif_priority_refinement :
    ∀ x : Option ExifData, get_exif_date x = exifExtractClaim x := by
  intro x
  cases x with
  | none => rfl
  | some ex =>
    rw [get_exif_date, exifExtractClaim]
    by_cases hm : ex.main.isEmpty
    · have hnil : ex.main = [] := by simpa using hm
      rw [if_pos hm]
      simp [effectiveSubIfd, hnil, firstNonEmptyStr]
    · rw [if_neg hm]
      have h0 : searchPriority ex.main (effectiveSubIfd ex) [] =
          (match firstNonEmptyStr [] with | some v => exifValueToDate v | none => "") := rfl
      have h1 := searchStep ex.main (effectiveSubIfd ex) tagDateTimeMain 0 [] [] h0
      rw [if_pos rfl] at h1
      have h2 := searchStep ex.main (effectiveSubIfd ex) tagDateTimeDigitized 1
        [(tagDateTimeMain, 0)] [List.lookup tagDateTimeMain ex.main] h1
      rw [if_neg (by decide)] at h2
      have h3 := searchStep ex.main (effectiveSubIfd ex) tagDateTimeOriginal 1
        [(tagDateTimeDigitized, 1), (tagDateTimeMain, 0)]
        [List.lookup tagDateTimeDigitized (effectiveSubIfd ex),
         List.lookup tagDateTimeMain ex.main] h2
      rw [if_neg (by decide)] at h3
      exact h3

/-- C9: in percent size mode the resolved font pixel size, margin and padding
each equal max(width, height) times the configured value divided by 100,
recomputed per image from that image's own dimensions; consequently the
resolved font pixel size of two images under the same style config is
proportional to their max dimension (stated as the cross-multiplication
identity). -/
theorem c9_percent_sizing_proportional :
    (∀ (fs mg pd : ℚ) (w h : ℕ),
      resolveSizes "백분율(%)" fs mg pd w h =
        some (((max w h : ℕ) : ℚ) * (fs / 100), ((max w h : ℕ) : ℚ) * (mg / 100),
          ((max w h : ℕ) : ℚ) * (pd / 100))) ∧
    (∀ (fs mg pd : ℚ) (w1 h1 w2 h2 : ℕ),
      fontPxOf (resolveSizes "백분율(%)" fs mg pd w1 h1) * ((max w2 h2 : ℕ) : ℚ) =
        fontPxOf (resolveSizes "백분율(%)" fs mg pd w2 h2) * ((max w1 h1 : ℕ) : ℚ)) := by
  refine ⟨resolveSizes_percent, fun fs mg pd w1 h1 w2 h2 => ?_⟩
  rw [resolveSizes_percent, resolveSizes_percent]
  show ((max w1 h1 : ℕ) : ℚ) * (fs / 100) * _ = ((max w2 h2 : ℕ) : ℚ) * (fs / 100) * _
  ring

/-- C10: the size-resolution block has no default branch — for any size-mode
label other than the two recognised ones it resolves to nothing, and compose
on a parsable date then raises UnboundLocalError at the first use of the
unassigned pixel variables, so compose is total only under the precondition
that the size mode is recognised. -/
theorem c10_size_mode_missing_default :
    (∀ (mode : String) (fs mg pd : ℚ) (w h : ℕ),
      mode ≠ "픽셀(px)" → mode ≠ "백분율(%)" →
      resolveSizes mode fs mg pd w h = none) ∧
    (∀ (osNT : Bool) (cfg : StyleConfig) (meas : MeasureFn) (img : PyImage) (d t : String),
      format_date osNT d cfg.date_format = .ok t →
      cfg.size_mode ≠ "픽셀(px)" → cfg.size_mode ≠ "백분율(%)" →
      drawWatermark osNT cfg meas img d = .error .unboundLocalError) := by
  refine ⟨resolveSizes_unknown, fun b cfg meas img d t hf h1 h2 => ?_⟩
  exact drawWatermark_unbound b cfg meas img d t hf
    (resolveSizes_unknown _ _ _ _ _ _ h1 h2)

/-- C10 witness: the spec-schema label "pixel" is not one of the two
recognised labels and compose raises UnboundLocalError on it. -/
theorem c10_size_mode_missing_default_witness :
    drawWatermark false cfgModeUnknown measureZero ⟨10, 10⟩ "2024-01-05" =
      .error .unboundLocalError :=
  c10_size_mode_missing_default.2 false cfgModeUnknown measureZero ⟨10, 10⟩ "2024-01-05"
    "2024-01-05" (by decide) (by decide) (by decide)
